import Mathlib

/-!
Shallow embedding of the slack-photo-update-script repository
(src/utils/slack_connector.py, src/utils/csv_manager.py,
src/core/update_photo.py, src/data_models/*), with theorems settling the
frozen claims about its specification.

Conventions of the embedding:
- Wall-clock instants and durations (Python datetime / total_seconds floats)
  are modelled as rationals.
- Remote HTTP responses are values passed in explicitly: each operation is a
  pure function of its inputs and of the response the remote would deliver.
- Python exceptions are modelled with an Except monad over the PyExc type
  below.  A Python `raise` statement whose operand is a plain string (as on
  the failed-search path of search_user) raises TypeError in Python 3
  (exceptions must derive from BaseException); it is embedded as
  PyExc.typeError.  Subscripting None (user_data["id"] when user_data is
  None) likewise raises TypeError.
-/

/-- The exception classes that appear in src/utils/slack_connector.py and the
Python built-ins (TypeError, ValueError) and pydantic ValidationError that the
embedded code paths can raise. -/
inductive PyExc where
  | typeError
  | valueError (msg : String)
  | domainTooLong (domain : String)
  | badUsernameError
  | unknownSlackUserCreationError
  | multipleUsersWithSameEmailError (email : String)
  | userIsActiveError
  | userAlreadyExistsError
  | failedToListTeams
  | failedToCreateWorkspace
  | validationError
deriving DecidableEq, Repr

/-- Result of one call to SlackConnectionManager._debounce: the number of
seconds slept (0 when no sleep happened) and the updated _debounce_data
table. -/
structure DebounceResult where
  sleep_time : ℚ
  debounce_data : String → Option ℚ

/-- SlackConnectionManager._debounce (src/utils/slack_connector.py lines
61-85).  The table maps a function name to the timestamp of its most recent
recorded call.  `now` is the value datetime.now(UTC) returns on entry; note
the source captures current_time once, before any sleep, and stores that
same captured value back into _debounce_data at the end. -/
def debounce (debounce_data : String → Option ℚ) (function_name : String)
    (rate_limit_per_minute : ℚ) (now : ℚ) : DebounceResult :=
  match debounce_data function_name with
  | none =>
      { sleep_time := 0
        debounce_data := fun k => if k = function_name then some now else debounce_data k }
  | some last =>
      let time_since_last_call := now - last
      let sleep_time :=
        if time_since_last_call < 60 / rate_limit_per_minute then
          60 / rate_limit_per_minute - time_since_last_call + 1
        else 0
      { sleep_time := sleep_time
        debounce_data := fun k => if k = function_name then some now else debounce_data k }

/-- Claim C1: for every operation key and configured rate limit r, the first
call for the key sleeps 0 seconds; a later call whose elapsed time since the
recorded timestamp is below 60/r sleeps exactly (60/r - elapsed) + 1 seconds
(the one-second pad included); and a call at least 60/r seconds after the
recorded timestamp sleeps 0 seconds. -/
theorem c1_debounce_wait (debounce_data : String → Option ℚ)
    (function_name : String) (rate_limit_per_minute now : ℚ)
    (_hr : 0 < rate_limit_per_minute) :
    (debounce_data function_name = none →
      (debounce debounce_data function_name rate_limit_per_minute now).sleep_time = 0) ∧
    (∀ last, debounce_data function_name = some last →
      ((now - last < 60 / rate_limit_per_minute →
        (debounce debounce_data function_name rate_limit_per_minute now).sleep_time =
          60 / rate_limit_per_minute - (now - last) + 1) ∧
       (60 / rate_limit_per_minute ≤ now - last →
        (debounce debounce_data function_name rate_limit_per_minute now).sleep_time = 0))) := by
  refine ⟨fun h => ?_, fun last h => ⟨fun hlt => ?_, fun hge => ?_⟩⟩
  · simp only [debounce, h]
  · simp only [debounce, h, if_pos hlt]
  · simp only [debounce, h, if_neg (not_lt.mpr hge)]

/-- Witness for C1 at concrete inputs: with rate limit 20 (so 60/r = 3) and a
recorded timestamp 0, a call at time 1 sleeps (3 - 1) + 1 = 3 seconds. -/
theorem c1_debounce_wait_witness :
    (debounce (fun k => if k = "create_user" then some 0 else none)
      "create_user" 20 1).sleep_time = 3 := by
  have h := ((c1_debounce_wait (fun k => if k = "create_user" then some 0 else none)
    "create_user" 20 1 (by norm_num)).2 0 (by simp)).1 (by norm_num)
  rw [h]
  norm_num

/-- Counterexample to claim C2 at a concrete input: with rate limit 1 call
per minute and a recorded timestamp 0, a call arriving at time 10 sleeps 51
seconds, yet the timestamp stored back is the arrival time 10, not the
post-sleep moment of proceeding 10 + 51 = 61. -/
theorem c2_counterexample :
    (debounce (fun k => if k = "patch_user" then some 0 else none)
      "patch_user" 1 10).debounce_data "patch_user" = some 10 ∧
    (debounce (fun k => if k = "patch_user" then some 0 else none)
      "patch_user" 1 10).sleep_time = 51 ∧
    (10 : ℚ) + 51 ≠ 10 := by
  refine ⟨by norm_num [debounce], by norm_num [debounce], by norm_num⟩

/-- Claim C2 as amended: the timestamp stored back for the key is the one
captured on entry, before any sleep, so the next call measures its elapsed
time from the previous call's arrival; when a sleep occurred, the stored
value differs from the moment the previous call actually proceeded. -/
theorem c2_debounce_timestamp_amended (debounce_data : String → Option ℚ)
    (function_name : String) (rate_limit_per_minute now last : ℚ)
    (h : debounce_data function_name = some last) :
    (debounce debounce_data function_name rate_limit_per_minute now).debounce_data
        function_name = some now ∧
    (now - last < 60 / rate_limit_per_minute →
      (debounce debounce_data function_name rate_limit_per_minute now).debounce_data
          function_name ≠
        some (now +
          (debounce debounce_data function_name rate_limit_per_minute now).sleep_time)) := by
  constructor
  · simp [debounce, h]
  · intro hlt hcontra
    simp only [debounce, h, if_pos hlt, eq_self_iff_true, if_true,
      Option.some.injEq] at hcontra
    have hpos : 0 < 60 / rate_limit_per_minute - (now - last) + 1 := by linarith
    linarith [hcontra]

/-- Witness for the amended C2 at concrete inputs: rate limit 1, recorded
timestamp 0, arrival at time 10 (elapsed 10 < 60): the stored timestamp is
10 and differs from 10 plus the sleep. -/
theorem c2_debounce_timestamp_amended_witness :
    (debounce (fun k => if k = "patch_user" then some 0 else none)
        "patch_user" 1 10).debounce_data "patch_user" = some 10 ∧
    (debounce (fun k => if k = "patch_user" then some 0 else none)
        "patch_user" 1 10).debounce_data "patch_user" ≠
      some (10 +
        (debounce (fun k => if k = "patch_user" then some 0 else none)
          "patch_user" 1 10).sleep_time) := by
  have h := c2_debounce_timestamp_amended
    (fun k => if k = "patch_user" then some 0 else none) "patch_user" 1 10 0 (by simp)
  exact ⟨h.1, h.2 (by norm_num)⟩

/-- A user record as returned inside the Resources array of a SCIM
search_users response; the embedded code paths read the id and active
fields (user["id"], user["active"]). -/
structure UserRec where
  id : String
  active : Bool
deriving DecidableEq, Repr

/-- A SCIM search_users response: its HTTP status code and
response.body.get("Resources"), which is absent (None) or a list. -/
structure SearchResponse where
  status_code : Nat
  resources : Option (List UserRec)
deriving DecidableEq, Repr

/-- SlackConnectionManager.search_user (src/utils/slack_connector.py lines
200-221), as a function of the email queried and the response the remote
delivers.  On a non-200 status the source executes a raise statement whose
operand is the plain string built there; in Python 3 raising a non-exception
value raises TypeError, so that path is embedded as an error, not as a
returned value.  On 200, a missing or empty Resources list yields an absent
result, two or more entries raise MultipleUsersWithSameEmailError, and a
single entry is returned. -/
def search_user (user_email : String) (resp : SearchResponse) :
    Except PyExc (Option UserRec) :=
  if resp.status_code ≠ 200 then
    .error .typeError
  else
    match resp.resources.getD [] with
    | [] => .ok none
    | [u] => .ok (some u)
    | _ :: _ :: _ => .error (.multipleUsersWithSameEmailError user_email)

/-- SlackConnectionManager.verify_deactivated_user_email
(src/utils/slack_connector.py lines 194-198).  When search_user returns an
absent result, the final statement subscripts None (user_data["id"]), which
raises TypeError. -/
def verify_deactivated_user_email (user_email : String) (resp : SearchResponse) :
    Except PyExc String :=
  match search_user user_email resp with
  | .error e => .error e
  | .ok (some u) => if u.active then .error .userIsActiveError else .ok u.id
  | .ok none => .error .typeError

/-- Claim C3: under a status-200 search response, search_user returns absent
for zero matching resources, the single record for exactly one, and raises
the multiple-users-with-same-email error for two or more. -/
theorem c3_search_user_matches (user_email : String) (resp : SearchResponse)
    (h : resp.status_code = 200) :
    (resp.resources.getD [] = [] → search_user user_email resp = .ok none) ∧
    (∀ u, resp.resources.getD [] = [u] → search_user user_email resp = .ok (some u)) ∧
    (∀ u v rest, resp.resources.getD [] = u :: v :: rest →
      search_user user_email resp =
        .error (.multipleUsersWithSameEmailError user_email)) := by
  refine ⟨fun h0 => ?_, fun u h1 => ?_, fun u v rest h2 => ?_⟩
  · simp [search_user, h, h0]
  · simp [search_user, h, h1]
  · simp [search_user, h, h2]

/-- Witness for C3 at concrete inputs: a 200 response with exactly one
matching record returns that record. -/
theorem c3_search_user_matches_witness :
    (SearchResponse.mk 200 (some [UserRec.mk "U1" true])).status_code = 200 ∧
    search_user "a@ex.com" (SearchResponse.mk 200 (some [UserRec.mk "U1" true])) =
      .ok (some (UserRec.mk "U1" true)) :=
  ⟨rfl, (c3_search_user_matches "a@ex.com"
    (SearchResponse.mk 200 (some [UserRec.mk "U1" true])) rfl).2.1
      (UserRec.mk "U1" true) rfl⟩

/-- Counterexample to claim C7 at a concrete input: a status-200 search that
finds no match makes verify_deactivated_user_email raise TypeError (it
subscripts the absent result), rather than return normally. -/
theorem c7_counterexample :
    verify_deactivated_user_email "a@ex.com" (SearchResponse.mk 200 (some [])) =
      .error .typeError ∧
    (verify_deactivated_user_email "a@ex.com"
      (SearchResponse.mk 200 (some []))).isOk = false := by
  exact ⟨rfl, rfl⟩

/-- Claim C7 as amended: under a status-200 search, verify fails with the
user-is-active error when the single match is active, returns the match's id
when it is inactive, and when there is no match it raises TypeError from
subscripting the absent result instead of returning normally. -/
theorem c7_verify_deactivated_amended (user_email : String)
    (resp : SearchResponse) (h : resp.status_code = 200) :
    (∀ u, resp.resources.getD [] = [u] → u.active = true →
      verify_deactivated_user_email user_email resp = .error .userIsActiveError) ∧
    (∀ u, resp.resources.getD [] = [u] → u.active = false →
      verify_deactivated_user_email user_email resp = .ok u.id) ∧
    (resp.resources.getD [] = [] →
      verify_deactivated_user_email user_email resp = .error .typeError) := by
  refine ⟨fun u h1 ha => ?_, fun u h1 ha => ?_, fun h0 => ?_⟩
  · simp [verify_deactivated_user_email, search_user, h, h1, ha]
  · simp [verify_deactivated_user_email, search_user, h, h1, ha]
  · simp [verify_deactivated_user_email, search_user, h, h0]

/-- Witness for the amended C7 at concrete inputs: an inactive single match
returns its id. -/
theorem c7_verify_deactivated_amended_witness :
    (SearchResponse.mk 200 (some [UserRec.mk "U2" false])).status_code = 200 ∧
    verify_deactivated_user_email "b@ex.com"
      (SearchResponse.mk 200 (some [UserRec.mk "U2" false])) = .ok "U2" :=
  ⟨rfl, (c7_verify_deactivated_amended "b@ex.com"
    (SearchResponse.mk 200 (some [UserRec.mk "U2" false])) rfl).2.1
      (UserRec.mk "U2" false) rfl rfl⟩

/-- Counterexample to claim C8 at a concrete input: on a status-500 search
response the raise statement does take effect (as a TypeError, since its
operand is a plain string), so search_user does not continue and return an
absent result. -/
theorem c8_counterexample :
    search_user "a@ex.com" (SearchResponse.mk 500 (some [UserRec.mk "U1" true])) =
      .error .typeError ∧
    search_user "a@ex.com" (SearchResponse.mk 500 (some [UserRec.mk "U1" true])) ≠
      .ok none := by
  exact ⟨rfl, by simp [search_user]⟩

/-- Claim C8 as amended: on every non-200 status, the raise statement with a
plain-string operand raises TypeError, so search_user fails on that path (with
an unintended exception type) rather than proceeding to return an absent
result. -/
theorem c8_search_user_non200_amended (user_email : String)
    (resp : SearchResponse) (h : resp.status_code ≠ 200) :
    search_user user_email resp = .error .typeError ∧
    search_user user_email resp ≠ .ok none := by
  constructor
  · simp [search_user, h]
  · simp [search_user, h]

/-- Witness for the amended C8 at a concrete input with status 429. -/
theorem c8_search_user_non200_amended_witness :
    (SearchResponse.mk 429 none).status_code ≠ 200 ∧
    (search_user "c@ex.com" (SearchResponse.mk 429 none) = .error .typeError ∧
     search_user "c@ex.com" (SearchResponse.mk 429 none) ≠ .ok none) :=
  ⟨by decide, c8_search_user_non200_amended "c@ex.com"
    (SearchResponse.mk 429 none) (by decide)⟩

/-- One row of an assign-photo instruction file
(src/data_models/instruction_entries.py, AssignPhotoInstructionEntry). -/
structure AssignPhotoInstructionEntry where
  user_email : String
  photo_url : String
deriving DecidableEq, Repr

/-- A SCIM patch_user response as used by update_photo: its status code and
response.underlying.body["Errors"]. -/
structure PatchResponse where
  status_code : Nat
  errors : String
deriving DecidableEq, Repr

/-- SlackConnectionManager.update_photo (src/utils/slack_connector.py lines
498-505) as a function of the patch response the remote delivers: a non-200
status raises ValueError with the Errors body, a 200 returns normally. -/
def update_photo (resp : PatchResponse) : Except PyExc Unit :=
  if resp.status_code ≠ 200 then .error (.valueError resp.errors) else .ok ()

/-- The remote behaviour seen by the photo-update processor: the search
response for each email queried and the patch response for each
(user id, photo url) pair patched. -/
structure PhotoUpdateEnv where
  search_response : String → SearchResponse
  patch_response : String → String → PatchResponse

/-- The per-row outcome logged by update_user_photo_processor: the search
raised and the row was skipped, the user was not found and the row was
skipped, the photo mutation raised and was logged, or the photo was
mutated. -/
inductive RowOutcome where
  | searchFailed
  | notFound
  | mutationFailed
  | mutated
deriving DecidableEq, Repr

/-- The body of the per-row loop of update_user_photo_processor
(src/core/update_photo.py lines 11-34): search_user errors of any kind are
caught and the row skipped; an absent user is logged and the row skipped; an
update_photo error is caught and logged; otherwise the photo is updated. -/
def process_photo_row (env : PhotoUpdateEnv) (csv_entry : AssignPhotoInstructionEntry) :
    RowOutcome :=
  match search_user csv_entry.user_email (env.search_response csv_entry.user_email) with
  | .error _ => .searchFailed
  | .ok none => .notFound
  | .ok (some user) =>
      match update_photo (env.patch_response user.id csv_entry.photo_url) with
      | .error _ => .mutationFailed
      | .ok _ => .mutated

/-- update_user_photo_processor (src/core/update_photo.py lines 6-34): the
loop over the instruction entries in file order, producing the outcome of
each row. -/
def update_user_photo_processor (env : PhotoUpdateEnv) :
    List AssignPhotoInstructionEntry → List RowOutcome
  | [] => []
  | csv_entry :: rest =>
      process_photo_row env csv_entry :: update_user_photo_processor env rest

/-- The remote behaviour of the three-row scenario of claim C4: lookup finds
a user for a@ex.com and c@ex.com, none for b@ex.com; the patch succeeds for
the user found for a@ex.com and fails for the one found for c@ex.com. -/
def c4_env : PhotoUpdateEnv where
  search_response := fun email =>
    if email = "a@ex.com" then SearchResponse.mk 200 (some [UserRec.mk "UA" true])
    else if email = "c@ex.com" then SearchResponse.mk 200 (some [UserRec.mk "UC" true])
    else SearchResponse.mk 200 (some [])
  patch_response := fun user_id _ =>
    if user_id = "UA" then PatchResponse.mk 200 "" else PatchResponse.mk 500 "Errors"

/-- Claim C4: the processor attempts every row in file order and completes
normally; each row's outcome is a function of that row alone, so no row
failure affects whether later rows are attempted, and the outcome list has
one entry per row.  In the three-row scenario with emails a@ex.com, b@ex.com,
c@ex.com where lookup finds users for the first and third, none for the
second, and the mutation succeeds for the first and fails for the third, the
outcomes are mutated, not-found-skipped, mutation-failed-skipped, with all
three rows attempted. -/
theorem c4_photo_processor_row_independence :
    (∀ (env : PhotoUpdateEnv) (entries : List AssignPhotoInstructionEntry),
      update_user_photo_processor env entries = entries.map (process_photo_row env)) ∧
    (∀ (env : PhotoUpdateEnv) (entries : List AssignPhotoInstructionEntry),
      (update_user_photo_processor env entries).length = entries.length) ∧
    update_user_photo_processor c4_env
        [AssignPhotoInstructionEntry.mk "a@ex.com" "photoA",
         AssignPhotoInstructionEntry.mk "b@ex.com" "photoB",
         AssignPhotoInstructionEntry.mk "c@ex.com" "photoC"] =
      [RowOutcome.mutated, RowOutcome.notFound, RowOutcome.mutationFailed] := by
  have hmap : ∀ (env : PhotoUpdateEnv) (entries : List AssignPhotoInstructionEntry),
      update_user_photo_processor env entries = entries.map (process_photo_row env) := by
    intro env entries
    induction entries with
    | nil => rfl
    | cons e rest ih => simp [update_user_photo_processor, ih]
  refine ⟨hmap, fun env entries => ?_, ?_⟩
  · rw [hmap]
    exact List.length_map _ _
  · rfl

/-- The User data model (src/data_models/user.py together with
src/data_models/base.py): slack_id and name from BaseSlackModel plus the
user fields.  The field named section in the source is written «section»
because section is a Lean keyword. -/
structure User where
  slack_id : Option String := none
  name : String
  email : String
  title : Option String := none
  «section» : Option String := none
  extention : Option String := none
  location : Option String := none
deriving DecidableEq, Repr

/-- The parts of the SCIM user payload built by fill_scim_user
(src/utils/slack_connector.py lines 87-121) that the embedded claims
depend on: the submitted userName, displayName and primary email. -/
structure ScimUser where
  userName : String
  displayName : String
  email : String
deriving DecidableEq, Repr

/-- The characters matched by the Python regex class backslash-s and removed
by str.strip() and str.lstrip(): space, tab, newline, carriage return,
vertical tab and form feed. -/
def py_is_space (c : Char) : Bool :=
  c = ' ' || c = '\t' || c = '\n' || c = '\r' || c = '\x0b' || c = '\x0c'

/-- Python str.strip(): removes leading and trailing whitespace. -/
def py_strip (s : String) : String :=
  String.mk (((s.toList.dropWhile py_is_space).reverse.dropWhile py_is_space).reverse)

/-- SlackConnectionManager.fill_scim_user restricted to the payload fields
the claims depend on: userName is username.strip(), displayName is
display_name.strip(), and the email is the primary email value. -/
def fill_scim_user (username display_name email : String) : ScimUser :=
  ScimUser.mk (py_strip username) (py_strip display_name) email

/-- A SCIM create_user response: its status code, response.body["id"], and
response.errors.description. -/
structure ScimCreateResponse where
  status_code : Nat
  body_id : String
  errors_description : String
deriving DecidableEq, Repr

/-- Python s.split(" ")[0]: the text before the first space, or the whole
string when it has none. -/
def first_word (s : String) : String :=
  String.mk (s.toList.takeWhile (fun c => c ≠ ' '))

/-- The bad-username error types recognised by _create_slack_user. -/
def bad_username_error_types : List String :=
  ["username_invalid", "username_too_long", "username_taken"]

/-- SlackConnectionManager._create_slack_user (src/utils/slack_connector.py
lines 123-139) as a function of the create response the remote delivers.
Status 201 returns the created id.  Status 400 or 409 raises
BadUsernameError when the first word of the error description is a
bad-username type; when it is not, the source falls out of the if without
raising or returning, so Python returns None - embedded as ok none.  Every
other status raises UnknownSlackUserCreationError. -/
def _create_slack_user (response : ScimCreateResponse) : Except PyExc (Option String) :=
  if response.status_code = 201 then
    .ok (some response.body_id)
  else if response.status_code = 400 ∨ response.status_code = 409 then
    if first_word response.errors_description ∈ bad_username_error_types then
      .error .badUsernameError
    else
      .ok none
  else
    .error .unknownSlackUserCreationError

/-- Python email.split("@")[0]: the text before the first at-sign, or the
whole string when it has none. -/
def email_local_part (email : String) : String :=
  String.mk (email.toList.takeWhile (fun c => c ≠ '@'))

/-- SlackConnectionManager.upload_new_single_user
(src/utils/slack_connector.py lines 141-184) as a function of the remote
create behaviour for each submitted payload: builds the payload with the
user name as username; on BadUsernameError retries exactly once with the
local part of the email as username (the retry is not guarded, so its own
failures propagate); any other raised error is logged and re-raised; the
value the creation call returned is then logged and returned. -/
def upload_new_single_user (create_response : ScimUser → ScimCreateResponse)
    (user : User) : Except PyExc (Option String) :=
  let scim_user := fill_scim_user user.name user.name user.email
  match _create_slack_user (create_response scim_user) with
  | .ok created_user_id => .ok created_user_id
  | .error .badUsernameError =>
      let short_username := email_local_part user.email
      let new_scim_user := fill_scim_user short_username user.name user.email
      _create_slack_user (create_response new_scim_user)
  | .error e => .error e

/-- Claim C5 evaluated at the failing input: when the remote rejects the
creation with status 400 and an error description whose first word is not a
bad-username type (here email_taken), _create_slack_user raises nothing and
returns None, so upload_new_single_user returns ok None instead of logging
and re-raising the failure; it also does not retry (the retry branch is
never entered, as shown by the create response being the same for every
payload). -/
theorem c5_upload_returns_none_on_non_username_rejection :
    upload_new_single_user
        (fun _ => ScimCreateResponse.mk 400 "" "email_taken the email is taken")
        (User.mk none "Some User" "some.user@ex.com" none none none none) =
      .ok none ∧
    (upload_new_single_user
        (fun _ => ScimCreateResponse.mk 400 "" "email_taken the email is taken")
        (User.mk none "Some User" "some.user@ex.com" none none none none)).isOk =
      true := by
  exact ⟨rfl, rfl⟩

/-- Modelled from the spec: the Workspace data model
(data_models/workspace.py is imported by src/utils/slack_connector.py but the
file is not under src/).  Section 3 of the spec describes Workspace as an
identity record with an optional remote id and a name, like the other
BaseSlackModel records. -/
structure Workspace where
  slack_id : Option String := none
  name : String
deriving DecidableEq, Repr

/-- The two remote calls create_workspace_in_slack can make, in the order it
makes them: the admin_teams_list lookup inside
verify_workspace_exists_in_slack and the admin_teams_create creation
call. -/
inductive WsCall where
  | teamsList
  | teamsCreate
deriving DecidableEq, Repr

/-- The remote behaviour seen by the workspace operations: whether the
admin_teams_list response has ok set, the (name, id) pairs of the teams it
lists, whether the admin_teams_create response has ok set, and the value of
its team field. -/
structure TeamsEnv where
  list_ok : Bool
  teams : List (String × String)
  create_ok : Bool
  create_team : String
deriving DecidableEq, Repr

/-- SlackConnectionManager.verify_workspace_exists_in_slack
(src/utils/slack_connector.py lines 237-260): raises when the list response
is not ok, otherwise returns the id of the first listed team whose name
equals the workspace name, or absent when none matches. -/
def verify_workspace_exists_in_slack (env : TeamsEnv) (workspace : Workspace) :
    Except PyExc (Option String) :=
  if env.list_ok = false then
    .error .failedToListTeams
  else
    .ok ((env.teams.find? (fun team => team.1 = workspace.name)).map (fun team => team.2))

/-- One pass of re.sub with the whitespace-run pattern replacing each maximal
run of whitespace characters by a single hyphen; the flag records whether the
previous character belonged to a run already replaced. -/
def collapse_spaces_aux : Bool → List Char → List Char
  | _, [] => []
  | prev_space, c :: rest =>
      if py_is_space c then
        if prev_space then collapse_spaces_aux true rest
        else '-' :: collapse_spaces_aux true rest
      else c :: collapse_spaces_aux false rest

/-- The domain slug derived inside create_workspace_in_slack
(src/utils/slack_connector.py lines 285-289): the workspace name lowered,
left-stripped, with every whitespace run replaced by a hyphen, suffixed with
the company abbreviation -misr. -/
def derive_domain (name : String) : String :=
  String.mk (collapse_spaces_aux false ((name.toList.map Char.toLower).dropWhile py_is_space))
    ++ "-misr"

/-- The outcome of one create_workspace_in_slack call: its returned value or
raised error, and the remote calls it made, in order. -/
structure WsCreateOutcome where
  result : Except PyExc String
  remote_calls : List WsCall
deriving Repr

/-- SlackConnectionManager.create_workspace_in_slack
(src/utils/slack_connector.py lines 262-308).  It first runs
verify_workspace_exists_in_slack, which performs the admin_teams_list remote
call; an existing id is returned as is.  Only then is the domain slug
derived, and a slug longer than 21 characters raises the domain-too-long
ValueError before the admin_teams_create remote call; otherwise the creation
call is made and its team field returned.  The debounce steps are local
waits, not remote calls, so they do not appear in the trace. -/
def create_workspace_in_slack (env : TeamsEnv) (workspace : Workspace) :
    WsCreateOutcome :=
  match verify_workspace_exists_in_slack env workspace with
  | .error e => WsCreateOutcome.mk (.error e) [WsCall.teamsList]
  | .ok (some existing_workspace_id) =>
      WsCreateOutcome.mk (.ok existing_workspace_id) [WsCall.teamsList]
  | .ok none =>
      let domain := derive_domain workspace.name
      if domain.length > 21 then
        WsCreateOutcome.mk (.error (.domainTooLong domain)) [WsCall.teamsList]
      else if env.create_ok = false then
        WsCreateOutcome.mk (.error .failedToCreateWorkspace)
          [WsCall.teamsList, WsCall.teamsCreate]
      else
        WsCreateOutcome.mk (.ok env.create_team) [WsCall.teamsList, WsCall.teamsCreate]

/-- Counterexample to claim C6 at the concrete input named by the claim: for
the workspace name Training ABCDEFGHIJKLMNOP (slug
training-abcdefghijklmnop-misr, 30 characters) the call does fail with the
domain-too-long error and makes no creation call, but the remote call list
before the failure is not empty: the admin_teams_list lookup has already
happened. -/
theorem c6_counterexample :
    (create_workspace_in_slack (TeamsEnv.mk true [] true "W1")
        (Workspace.mk none "Training ABCDEFGHIJKLMNOP")).result =
      .error (.domainTooLong "training-abcdefghijklmnop-misr") ∧
    (create_workspace_in_slack (TeamsEnv.mk true [] true "W1")
        (Workspace.mk none "Training ABCDEFGHIJKLMNOP")).remote_calls =
      [WsCall.teamsList] ∧
    [WsCall.teamsList] ≠ ([] : List WsCall) := by
  refine ⟨rfl, rfl, by simp⟩

/-- Claim C6 as amended: when the workspace does not already exist and the
derived slug exceeds 21 characters, create_workspace_in_slack fails with the
domain-too-long validation error before the creation call is attempted - no
admin_teams_create call occurs - but after the existence lookup, whose
admin_teams_list remote call does occur first. -/
theorem c6_domain_too_long_amended (env : TeamsEnv) (workspace : Workspace)
    (hlist : env.list_ok = true)
    (hnone : env.teams.find? (fun team => team.1 = workspace.name) = none)
    (hlen : (derive_domain workspace.name).length > 21) :
    (create_workspace_in_slack env workspace).result =
      .error (.domainTooLong (derive_domain workspace.name)) ∧
    (create_workspace_in_slack env workspace).remote_calls = [WsCall.teamsList] ∧
    WsCall.teamsCreate ∉ (create_workspace_in_slack env workspace).remote_calls := by
  have hver : verify_workspace_exists_in_slack env workspace = .ok none := by
    simp [verify_workspace_exists_in_slack, hlist, hnone]
  refine ⟨?_, ?_, ?_⟩ <;>
    simp [create_workspace_in_slack, hver, hlen]

/-- Witness for the amended C6 at the concrete input of the claim. -/
theorem c6_domain_too_long_amended_witness :
    (TeamsEnv.mk true [] true "W1").list_ok = true ∧
    (TeamsEnv.mk true [] true "W1").teams.find?
      (fun team => team.1 = (Workspace.mk none "Training ABCDEFGHIJKLMNOP").name) = none ∧
    (derive_domain (Workspace.mk none "Training ABCDEFGHIJKLMNOP").name).length > 21 ∧
    ((create_workspace_in_slack (TeamsEnv.mk true [] true "W1")
        (Workspace.mk none "Training ABCDEFGHIJKLMNOP")).result =
      .error (.domainTooLong
        (derive_domain (Workspace.mk none "Training ABCDEFGHIJKLMNOP").name)) ∧
     (create_workspace_in_slack (TeamsEnv.mk true [] true "W1")
        (Workspace.mk none "Training ABCDEFGHIJKLMNOP")).remote_calls =
       [WsCall.teamsList] ∧
     WsCall.teamsCreate ∉ (create_workspace_in_slack (TeamsEnv.mk true [] true "W1")
        (Workspace.mk none "Training ABCDEFGHIJKLMNOP")).remote_calls) :=
  ⟨rfl, rfl, by decide,
    c6_domain_too_long_amended (TeamsEnv.mk true [] true "W1")
      (Workspace.mk none "Training ABCDEFGHIJKLMNOP") rfl rfl (by decide)⟩

/-- One row as produced by csv.DictReader: header field names paired with the
row values, in column order, keys distinct. -/
abbrev CsvRow := List (String × String)

/-- Looking a field up in a DictReader row by name. -/
def lookup_field (row : CsvRow) (field : String) : Option String :=
  (row.find? (fun p => p.1 = field)).map (fun p => p.2)

/-- Constructing an AssignPhotoInstructionEntry from a row, as
instructions_type(**row) does in CSVInstructionManager._read_entries
(src/utils/csv_manager.py lines 49-62).  The entry types are pydantic
BaseModel subclasses with the default model configuration, so a missing
required field raises ValidationError while unknown keyword fields are
ignored (the pydantic v2 default extra behaviour). -/
def mk_assign_photo_entry (row : CsvRow) : Except PyExc AssignPhotoInstructionEntry :=
  match lookup_field row "user_email", lookup_field row "photo_url" with
  | some user_email, some photo_url =>
      .ok (AssignPhotoInstructionEntry.mk user_email photo_url)
  | _, _ => .error .validationError

/-- The sequence yielded by yield_assign_photo_instructions wrapping
_read_entries (src/utils/csv_manager.py): each row is constructed in file
order, and a construction error propagates out of the generator, aborting
the whole sequence rather than skipping the row. -/
def read_assign_photo_entries : List CsvRow →
    Except PyExc (List AssignPhotoInstructionEntry)
  | [] => .ok []
  | row :: rest =>
      match mk_assign_photo_entry row with
      | .error e => .error e
      | .ok entry =>
          match read_assign_photo_entries rest with
          | .error e => .error e
          | .ok entries => .ok (entry :: entries)

/-- Counterexample to claim C9 at a concrete input: a row carrying an
unknown extra field is not rejected at construction; pydantic ignores the
extra field and the entry is built from the known ones. -/
theorem c9_counterexample :
    mk_assign_photo_entry
        [("user_email", "a@ex.com"), ("photo_url", "photoA"), ("unexpected_field", "x")] =
      .ok (AssignPhotoInstructionEntry.mk "a@ex.com" "photoA") ∧
    mk_assign_photo_entry
        [("user_email", "a@ex.com"), ("photo_url", "photoA"), ("unexpected_field", "x")] ≠
      .error .validationError := by
  exact ⟨rfl, by simp [mk_assign_photo_entry, lookup_field]⟩

/-- Claim C9 as amended: a row missing a required field of the target shape
raises a fatal construction error, and any construction error aborts the
whole sequence (the row is not silently skipped); but a row carrying
unknown or extra fields is accepted, the extra fields being ignored at
construction rather than rejected. -/
theorem c9_row_schema_amended :
    (∀ row : CsvRow,
      lookup_field row "user_email" = none ∨ lookup_field row "photo_url" = none →
      mk_assign_photo_entry row = .error .validationError) ∧
    (∀ rows : List CsvRow,
      (read_assign_photo_entries rows).isOk =
        rows.all (fun row => (mk_assign_photo_entry row).isOk)) ∧
    (∀ (user_email photo_url : String) (extras : CsvRow),
      mk_assign_photo_entry
          ([("user_email", user_email), ("photo_url", photo_url)] ++ extras) =
        .ok (AssignPhotoInstructionEntry.mk user_email photo_url)) := by
  refine ⟨fun row h => ?_, fun rows => ?_, fun user_email photo_url extras => ?_⟩
  · rcases h with h | h <;> simp [mk_assign_photo_entry, h]
  · induction rows with
    | nil => rfl
    | cons row rest ih =>
        simp only [read_assign_photo_entries, List.all_cons]
        cases hrow : mk_assign_photo_entry row with
        | error e => simp [hrow, Except.isOk, Except.toBool]
        | ok entry =>
            cases hrest : read_assign_photo_entries rest with
            | error e => simp_all [Except.isOk, Except.toBool]
            | ok entries => simp_all [Except.isOk, Except.toBool]
  · simp [mk_assign_photo_entry, lookup_field, List.find?]

/-- Witness for the amended C9 at a concrete input: a row whose photo_url
column is absent fails with the validation error. -/
theorem c9_row_schema_amended_witness :
    (lookup_field [("user_email", "a@ex.com")] "user_email" = none ∨
      lookup_field [("user_email", "a@ex.com")] "photo_url" = none) ∧
    mk_assign_photo_entry [("user_email", "a@ex.com")] = .error .validationError :=
  ⟨Or.inr rfl, c9_row_schema_amended.1 [("user_email", "a@ex.com")] (Or.inr rfl)⟩

/-- The number of lines Python counts when iterating an open text file whose
whole content is the given string: one line per newline character, plus a
final unterminated line when the content is nonempty and does not end with a
newline. -/
def count_python_lines (content : String) : Nat :=
  content.toList.count '\n' +
    (if content.toList = [] ∨ content.toList.getLast? = some '\n' then 0 else 1)

/-- The CSVInstructionManager state set up by its constructor
(src/utils/csv_manager.py lines 17-25): the filename and the
total_instructions count. -/
structure CSVInstructionManager where
  filename : String
  total_instructions : Int
deriving DecidableEq, Repr

/-- CSVInstructionManager.__init__ (src/utils/csv_manager.py lines 17-25) as
a function of the file content the open call reads: it counts the lines of
the file and subtracts one, with no lower bound and no content validation;
construction only fails when the file cannot be opened, which is outside
this embedding (the content being given means the open succeeded). -/
def mk_csv_instruction_manager (filename : String) (content : String) :
    CSVInstructionManager :=
  CSVInstructionManager.mk filename ((count_python_lines content : Int) - 1)

/-- Claim C10: construction always sets total_instructions to the line count
minus one with no lower bound: a zero-line file yields -1, a header-only
file yields 0, and in general the count is the line count minus one (so it
is never clamped below). -/
theorem c10_total_instructions :
    (mk_csv_instruction_manager "update_photo.csv" "").total_instructions = -1 ∧
    (mk_csv_instruction_manager "update_photo.csv"
        "user_email,photo_url\n").total_instructions = 0 ∧
    (∀ filename content : String,
      (mk_csv_instruction_manager filename content).total_instructions =
        (count_python_lines content : Int) - 1) ∧
    (mk_csv_instruction_manager "update_photo.csv" "").total_instructions < 0 := by
  refine ⟨by decide, by decide, fun filename content => rfl, by decide⟩
